import Mathlib

/-!
Verification of the cluster membership core of the incus daemon, as a shallow
embedding of `cmd/incusd/api_cluster.go` and `cmd/incusd/main_activateifneeded.go`.

Pure control flow of handlers is translated into Lean functions over explicit
request/state records.  Calls into external collaborators (database
transactions, RPCs, certificate handling, the dqlite `cluster.*` package) are
represented by explicit outcome fields of an environment record, so a handler
becomes a total function from its request and environment to its response,
and, where a claim needs it, to the trace of externally visible actions it
performs, in program order.
-/

namespace Incus

/-- Raft role of a member, `db.RaftRole` (`db.RaftVoter`, `db.RaftStandBy`,
`db.RaftSpare`). -/
inductive RaftRole
  | voter
  | standBy
  | spare
deriving DecidableEq, Repr

/-- A node of the dqlite raft cluster, `db.RaftNode` as used in
`api_cluster.go` (fields `ID`, `Address`, `Role`, `Name`). -/
structure RaftNode where
  id : Nat
  address : String
  role : RaftRole
  name : String
deriving DecidableEq, Repr

/-- Cluster member state, `db.ClusterMemberState*` (`Created`, `Pending`,
`Evacuated`). -/
inductive MemberState
  | created
  | pending
  | evacuated
deriving DecidableEq, Repr

/-- A row of the members table, `db.NodeInfo`, restricted to the fields the
handlers under verification read (`Name`, `Address`, `State`). -/
structure NodeInfo where
  name : String
  address : String
  state : MemberState
deriving DecidableEq, Repr

/-! ## Responses

`response.Response` values produced by the handlers, collapsed to the
constructor used at each return site of the Go code. -/

/-- The response classes returned by the handlers of `api_cluster.go`. -/
inductive Response
  | badRequest
  | smartError
  | internalError
  /-- `operations.OperationResponse(op)`: the asynchronous-operation response. -/
  | operationResponse
  /-- `response.ManualResponse(...)`: the render-and-flush response used by
  `clusterPutDisable` and the non-leader branch of `clusterNodeDelete`. -/
  | manualResponse
  | syncResponse
  /-- `response.SyncResponseRedirect(url)`. -/
  | syncResponseRedirect (url : String)
deriving DecidableEq, Repr

/-- Whether a response is a redirect (`response.SyncResponseRedirect`). -/
def Response.isRedirect : Response → Bool
  | .syncResponseRedirect _ => true
  | _ => false

/-! ## PUT /1.0/cluster (`clusterPut`, api_cluster.go:263) -/

/-- The request body `api.ClusterPut`, restricted to the fields `clusterPut`
and its branches read. -/
structure ClusterPutReq where
  serverName : String
  enabled : Bool
  clusterAddress : String
  clusterCertificate : String
  serverAddress : String
deriving DecidableEq, Repr

/-- Environment of `clusterPutDisable` (api_cluster.go:848): outcomes of its
external calls, in program order. -/
structure DisableEnv where
  /-- `s.DB.Cluster.Close()` succeeds. -/
  dbCloseOK : Bool
  /-- removing the `cluster.crt`/`cluster.key`/`cluster.ca` files succeeds. -/
  certRemoveOK : Bool
  /-- `internalUtil.LoadCert(s.OS.VarDir)` succeeds. -/
  loadCertOK : Bool
  /-- `d.gateway.Reset(networkCert)` succeeds. -/
  resetOK : Bool
deriving DecidableEq, Repr

/-- `clusterPutDisable` (api_cluster.go:848): on success it renders and
flushes an empty sync response (`response.ManualResponse`), after spawning the
goroutine that waits for the request context and the process-wide
`clusterPutDisableMu` before replacing/stopping the daemon. -/
def clusterPutDisable (env : DisableEnv) : Response :=
  if ¬env.dbCloseOK then .smartError
  else if ¬env.certRemoveOK then .internalError
  else if ¬env.loadCertOK then .internalError
  else if ¬env.resetOK then .smartError
  else .manualResponse

/-- Environment of `clusterPutBootstrap` (api_cluster.go:300): outcomes of its
external calls before the operation is created. -/
structure BootstrapEnv where
  /-- the node transaction defaulting `cluster.https_address` from
  `core.https_address` succeeds (in particular the address is not a
  wildcard). -/
  configTxOK : Bool
  /-- `operations.OperationCreate` succeeds. -/
  opCreateOK : Bool
deriving DecidableEq, Repr

/-- `clusterPutBootstrap` (api_cluster.go:300): creates a
`ClusterBootstrap` task operation and returns it as an
`operations.OperationResponse`. -/
def clusterPutBootstrap (env : BootstrapEnv) : Response :=
  if ¬env.configTxOK then .smartError
  else if ¬env.opCreateOK then .internalError
  else .operationResponse

/-- Environment of `clusterPutJoin` (api_cluster.go:404): outcomes of the
synchronous checks performed before the join operation is created. -/
structure JoinEnv where
  /-- `s.ServerClustered`. -/
  serverClustered : Bool
  /-- `validate.IsListenAddress(true, false, false)(req.ServerAddress)`
  succeeds. -/
  serverAddressValid : Bool
  /-- `s.LocalConfig.ClusterAddress()`. -/
  localClusterAddress : String
  /-- `internalUtil.IsAddressCovered(req.ServerAddress, localClusterAddress)`. -/
  addressCovered : Bool
  /-- the `cluster.https_address`/`core.https_address` setup performed when
  `cluster.https_address` is unset (endpoint updates and node-config patch)
  succeeds. -/
  addressConfigOK : Bool
  /-- `operations.OperationCreate` succeeds. -/
  opCreateOK : Bool
deriving DecidableEq, Repr

/-- `clusterPutJoin` (api_cluster.go:404): after its synchronous
pre-condition checks it creates a `ClusterJoin` task operation and returns it
as an `operations.OperationResponse`; the join protocol itself runs inside
that operation. -/
def clusterPutJoin (env : JoinEnv) (req : ClusterPutReq) : Response :=
  if req.clusterCertificate = "" then .badRequest
  else if env.serverClustered then .badRequest
  else if req.serverAddress = "" then .badRequest
  else if ¬env.serverAddressValid then .badRequest
  else if env.localClusterAddress ≠ "" ∧ ¬env.addressCovered then .badRequest
  else if env.localClusterAddress = "" ∧ ¬env.addressConfigOK then .smartError
  else if ¬env.opCreateOK then .internalError
  else .operationResponse

/-- The branch `clusterPut` dispatches a request to. -/
inductive ClusterPutBranch
  /-- one of the three quick checks rejected the request with `BadRequest`. -/
  | invalid
  | disable
  | bootstrap
  | join
deriving DecidableEq, Repr

/-- The dispatch logic of `clusterPut` (api_cluster.go:263): the three quick
checks, then `enabled=false` → disable, empty `cluster_address` → bootstrap,
otherwise join.  `groupPfx` is the internal `targetGroupPrefix` constant. -/
def clusterPutBranch (groupPfx : String) (req : ClusterPutReq) : ClusterPutBranch :=
  if req.serverName = "" ∧ req.enabled then .invalid
  else if req.serverName ≠ "" ∧ ¬req.enabled then .invalid
  else if req.serverName ≠ "" ∧ groupPfx.data.isPrefixOf req.serverName.data then .invalid
  else if ¬req.enabled then .disable
  else if req.clusterAddress = "" then .bootstrap
  else .join

/-- `clusterPut` (api_cluster.go:263). -/
def clusterPut (groupPfx : String) (dEnv : DisableEnv) (bEnv : BootstrapEnv)
    (jEnv : JoinEnv) (req : ClusterPutReq) : Response :=
  match clusterPutBranch groupPfx req with
  | .invalid => .badRequest
  | .disable => clusterPutDisable dEnv
  | .bootstrap => clusterPutBootstrap bEnv
  | .join => clusterPutJoin jEnv req

/-! ## POST /1.0/cluster/members (`clusterNodesPost`, api_cluster.go:1330)

Join-token issuance.  Operations are modelled with the fields the handler
reads and writes: id, type, status and the metadata entries `serverName` and
`addresses` of join-token operations.  `operationCancel` is modelled as
setting the status of the targeted operation to `Cancelled`. -/

/-- Operation status codes (`api.StatusCode`) distinguished by the handler. -/
inductive OpStatus
  | running
  | cancelled
  | success
  | failure
deriving DecidableEq, Repr

/-- Operation types; the handler only queries
`operationtype.ClusterJoinToken`. -/
inductive OpType
  | clusterJoinToken
  | other
deriving DecidableEq, Repr

/-- An operation row, restricted to what `clusterNodesPost` reads and writes:
the type it filters on, the status, and the `serverName` and `addresses`
metadata entries of join-token operations (`serverName = none` models absent
metadata). -/
structure Operation where
  id : Nat
  opType : OpType
  status : OpStatus
  serverName : Option String
  addresses : List String
deriving DecidableEq, Repr

/-- The request body `api.ClusterMembersPost`. -/
structure ClusterMembersPost where
  serverName : String
deriving DecidableEq, Repr

/-- Daemon-side state read and mutated by `clusterNodesPost`: whether this
server is clustered, the members table, and the operations. -/
structure TokenState where
  serverClustered : Bool
  members : List NodeInfo
  ops : List Operation
deriving DecidableEq, Repr

/-- Outcomes of the external calls of `clusterNodesPost`, in program order. -/
structure NodesPostEnv where
  /-- `internalInstance.GetExpiry` succeeds. -/
  expiryOK : Bool
  /-- `operationsGetByType` succeeds. -/
  opsGetOK : Bool
  /-- `internalUtil.RandomHexString(32)` succeeds. -/
  secretOK : Bool
  /-- `localtls.CertFingerprintStr` succeeds. -/
  fingerprintOK : Bool
  /-- `operations.OperationCreate` succeeds. -/
  opCreateOK : Bool
  /-- id assigned to the newly created token operation. -/
  newOpId : Nat
deriving DecidableEq, Repr

/-- The member-collection transaction body of `clusterNodesPost`
(api_cluster.go:1356-1378): walk the members table in order; a member whose
name equals the requested `server_name` aborts the transaction with an error;
evacuated or offline members are skipped; the remaining members contribute
their address.  `isOff` is `member.IsOffline(s.GlobalConfig.OfflineThreshold())`. -/
def collectAddresses (isOff : NodeInfo → Bool) (serverName : String) :
    List NodeInfo → Except Unit (List String)
  | [] => .ok []
  | m :: ms =>
    if m.name = serverName then .error ()
    else if m.state = .evacuated ∨ isOff m then collectAddresses isOff serverName ms
    else (collectAddresses isOff serverName ms).map (m.address :: ·)

/-- The addresses of cluster members that are neither evacuated nor offline,
in table order. -/
def onlineAddresses (isOff : NodeInfo → Bool) (members : List NodeInfo) : List String :=
  (members.filter (fun m => ¬(m.state = .evacuated ∨ isOff m))).map (·.address)

/-- The cancellation loop of `clusterNodesPost` (api_cluster.go:1400-1418):
every running join-token operation whose `serverName` metadata equals the
requested name is cancelled. -/
def cancelMatching (serverName : String) (ops : List Operation) : List Operation :=
  ops.map fun op =>
    if op.opType = .clusterJoinToken ∧ op.status = .running ∧ op.serverName = some serverName then
      { op with status := .cancelled }
    else op

/-- Result of `clusterNodesPost`: the response and the operations after the
request. -/
structure NodesPostOutcome where
  resp : Response
  /-- when the response is `operationResponse`, the join-token operation that
  was created. -/
  newOp : Option Operation
  ops : List Operation
deriving DecidableEq, Repr

/-- `clusterNodesPost` (api_cluster.go:1330): request validation, collection
of the online member addresses (failing when the requested name already
exists or no member is online), cancellation of duplicate running join
tokens, then creation of the join-token operation carrying
`{serverName, secret, fingerprint, addresses, expiresAt}` metadata. -/
def clusterNodesPost (isOff : NodeInfo → Bool) (env : NodesPostEnv)
    (st : TokenState) (req : ClusterMembersPost) : NodesPostOutcome :=
  if ¬st.serverClustered then ⟨.badRequest, none, st.ops⟩
  else if ¬env.expiryOK then ⟨.badRequest, none, st.ops⟩
  else
    match collectAddresses isOff req.serverName st.members with
    | .error _ => ⟨.smartError, none, st.ops⟩
    | .ok addrs =>
      if addrs.length < 1 then ⟨.internalError, none, st.ops⟩
      else if ¬env.opsGetOK then ⟨.internalError, none, st.ops⟩
      else
        let ops2 := cancelMatching req.serverName st.ops
        if ¬env.secretOK then ⟨.internalError, none, ops2⟩
        else if ¬env.fingerprintOK then ⟨.internalError, none, ops2⟩
        else
          let newOp : Operation :=
            ⟨env.newOpId, .clusterJoinToken, .running, some req.serverName, addrs⟩
          if ¬env.opCreateOK then ⟨.internalError, none, ops2⟩
          else ⟨.operationResponse, some newOp, ops2 ++ [newOp]⟩

/-- The running join-token operations for a given server name among `ops`. -/
def runningTokensFor (serverName : String) (ops : List Operation) : List Operation :=
  ops.filter fun op =>
    op.opType = .clusterJoinToken ∧ op.status = .running ∧ op.serverName = some serverName

/-! ## Internal raft-configuration endpoints (api_cluster.go:2221, 2324, 2558)

Each of `/internal/cluster/accept`, `/internal/cluster/rebalance` and
`/internal/cluster/handover` compares the local cluster address with the
current leader address and, when they differ, answers with
`response.SyncResponseRedirect` pointing at the same path on the leader. -/

/-- Leader lookup as seen by a handler: the local cluster address
(`s.LocalConfig.ClusterAddress()`) and the result of
`s.Cluster.LeaderAddress()` (`none` models a lookup error). -/
structure LeaderView where
  localClusterAddress : String
  leaderAddress : Option String
deriving DecidableEq, Repr

/-- Outcomes of the leader-branch calls of `internalClusterPostAccept`. -/
structure AcceptEnv where
  /-- `clusterCheckStoragePoolsMatch` succeeds. -/
  poolsMatch : Bool
  /-- `clusterCheckNetworksMatch` succeeds. -/
  networksMatch : Bool
  /-- `cluster.Accept` succeeds. -/
  acceptOK : Bool
deriving DecidableEq, Repr

/-- `internalClusterPostAccept` (api_cluster.go:2221): name check, then
leader redirection, then the accept logic under the membership mutex. -/
def internalClusterPostAccept (lv : LeaderView) (env : AcceptEnv)
    (name : String) : Response :=
  if name = "" then .badRequest
  else
    match lv.leaderAddress with
    | none => .internalError
    | some leader =>
      if lv.localClusterAddress ≠ leader then
        if leader = "" then .smartError
        else .syncResponseRedirect ("https://" ++ leader ++ "/internal/cluster/accept")
      else
        if ¬env.poolsMatch then .smartError
        else if ¬env.networksMatch then .smartError
        else if ¬env.acceptOK then .badRequest
        else .syncResponse

/-- `internalClusterPostRebalance` (api_cluster.go:2324): leader redirection,
then a rebalance pass under the membership mutex. -/
def internalClusterPostRebalance (lv : LeaderView) (rebalanceOK : Bool) : Response :=
  match lv.leaderAddress with
  | none => .internalError
  | some leader =>
    if lv.localClusterAddress ≠ leader then
      .syncResponseRedirect ("https://" ++ leader ++ "/internal/cluster/rebalance")
    else
      if ¬rebalanceOK then .smartError
      else .syncResponse

/-! ## Handover (api_cluster.go:2470 and 2558) -/

/-- Outcomes of the leader-branch calls of `internalClusterPostHandover`:
the result `(target, nodes)` of `cluster.Handover` and the outcomes of the
two `changeMemberRole` RPCs. -/
structure HandoverEnv where
  /-- `cluster.Handover` succeeds. -/
  handoverOK : Bool
  /-- promotion candidate address returned by `cluster.Handover` (`""` when
  there is no candidate). -/
  target : String
  /-- raft-node list returned by `cluster.Handover`. -/
  nodes : List RaftNode
  /-- the promotion `changeMemberRole` RPC succeeds. -/
  promoteOK : Bool
  /-- the demotion `changeMemberRole` RPC succeeds. -/
  demoteOK : Bool
deriving DecidableEq, Repr

/-- `nodes` with the role of the node at `address` set to spare
(api_cluster.go:2619-2623). -/
def demoteToSpare (address : String) (nodes : List RaftNode) : List RaftNode :=
  nodes.map fun n => if n.address = address then { n with role := .spare } else n

/-- Result of `internalClusterPostHandover`: the response together with the
`changeMemberRole` (`/internal/cluster/assign`) calls it issued, in order. -/
structure HandoverOutcome where
  resp : Response
  assigns : List (String × List RaftNode)
deriving DecidableEq, Repr

/-- `internalClusterPostHandover` (api_cluster.go:2558): address check,
leader redirection, then under the membership mutex: `cluster.Handover`
picks a promotion candidate; with no candidate the handler returns success
without issuing any role change; otherwise it first promotes the candidate
and only then demotes the departing member to spare. -/
def internalClusterPostHandover (lv : LeaderView) (env : HandoverEnv)
    (reqAddress : String) : HandoverOutcome :=
  if reqAddress = "" then ⟨.badRequest, []⟩
  else
    match lv.leaderAddress with
    | none => ⟨.internalError, []⟩
    | some leader =>
      if leader = "" then ⟨.smartError, []⟩
      else if lv.localClusterAddress ≠ leader then
        ⟨.syncResponseRedirect ("https://" ++ leader ++ "/internal/cluster/handover"), []⟩
      else if ¬env.handoverOK then ⟨.smartError, []⟩
      else if env.target = "" then ⟨.syncResponse, []⟩
      else if ¬env.promoteOK then ⟨.smartError, [(env.target, env.nodes)]⟩
      else
        let nodes2 := demoteToSpare reqAddress env.nodes
        if ¬env.demoteOK then ⟨.smartError, [(env.target, env.nodes), (reqAddress, nodes2)]⟩
        else ⟨.syncResponse, [(env.target, env.nodes), (reqAddress, nodes2)]⟩

/-- Externally visible actions of `handoverMemberRole` (api_cluster.go:2470),
the departing-member side of the handover protocol. -/
inductive HandoverEvent
  /-- `gateway.TransferLeadership()`. -/
  | transfer
  /-- `POST /internal/cluster/handover` sent to the given leader address. -/
  | post (leader : String)
deriving DecidableEq, Repr

/-- The `findLeader` loop of `handoverMemberRole` (api_cluster.go:2486-2504).
The oracle `leaders` lists the successive results of
`s.Cluster.LeaderAddress()` (`none` models a lookup error).  While the leader
is this member itself, the member transfers leadership (`transferOK` is the
outcome of `gateway.TransferLeadership()`) and looks the leader up again;
once the leader is another member it posts the handover request to it.
Returns the event trace and whether the loop reached the post without
error. -/
def handoverFindLeader (localClusterAddress : String) (transferOK : Bool) :
    List (Option String) → List HandoverEvent × Bool
  | [] => ([], false)
  | none :: _ => ([], false)
  | some leader :: rest =>
    if leader = "" then ([], false)
    else if leader = localClusterAddress then
      if ¬transferOK then ([.transfer], false)
      else
        let (evs, ok) := handoverFindLeader localClusterAddress transferOK rest
        (.transfer :: evs, ok)
    else ([.post leader], true)

/-- `handoverMemberRole` (api_cluster.go:2470): a no-op when the server is
not clustered, otherwise the `findLeader` loop followed by the handover
post. -/
def handoverMemberRole (serverClustered : Bool) (localClusterAddress : String)
    (transferOK : Bool) (leaders : List (Option String)) : List HandoverEvent × Bool :=
  if ¬serverClustered then ([], true)
  else handoverFindLeader localClusterAddress transferOK leaders

/-! ## Rebalance (`rebalanceMemberRoles`, api_cluster.go:2361) -/

/-- Externally visible actions of a rebalance pass. -/
inductive RebalanceAction
  /-- `changeMemberRole` – the `/internal/cluster/assign` RPC posted to
  `address` with the given node list. -/
  | assign (address : String) (nodes : List RaftNode)
  /-- `gateway.DemoteOfflineNode(id)`. -/
  | demoteOffline (id : Nat)
deriving DecidableEq, Repr

/-- `rebalanceMemberRoles` (api_cluster.go:2361): the `again` loop.  The
oracle lists the successive results `(address, nodes)` of
`cluster.Rebalance`; `reach` is
`cluster.HasConnectivity(..., address, true)`; `assignOK` and `demoteOK` are
the outcomes of the `changeMemberRole` RPC and of
`gateway.DemoteOfflineNode`.  Each iteration: an empty address ends the
pass; otherwise the member whose role should change is looked up in `nodes`;
a promotion target (role not spare) that fails the connectivity probe ends
the pass (deferred to a later trigger); a reachable member — promotion or
demotion — gets the assign RPC; an unreachable member with target role spare
is demoted through `DemoteOfflineNode` and the loop restarts.  Returns the
trace of actions, in order. -/
def rebalanceMemberRoles (reach : String → Bool) (assignOK demoteOK : Bool) :
    List (String × List RaftNode) → List RebalanceAction
  | [] => []
  | (address, nodes) :: rest =>
    if address = "" then []
    else
      match nodes.find? (fun n => n.address = address) with
      | some n =>
        if n.role ≠ .spare then
          if ¬reach address then []
          else
            .assign address nodes ::
              (if assignOK then rebalanceMemberRoles reach assignOK demoteOK rest else [])
        else if reach address then
          .assign address nodes ::
            (if assignOK then rebalanceMemberRoles reach assignOK demoteOK rest else [])
        else
          .demoteOffline n.id ::
            (if demoteOK then rebalanceMemberRoles reach assignOK demoteOK rest else [])
      | none =>
        .assign address nodes ::
          (if assignOK then rebalanceMemberRoles reach assignOK demoteOK rest else [])

/-! ## DELETE /1.0/cluster/members/{name} (`clusterNodeDelete`, api_cluster.go:1957) -/

/-- Externally visible actions of `clusterNodeDelete`, in program order. -/
inductive DeleteEvent
  /-- `clusterPutDisableMu.Lock()` taken before forwarding a self removal. -/
  | acquireDisableLock
  /-- `client.DeleteClusterMember` / `client.DeletePendingClusterMember`
  issued against the leader. -/
  | forwardDelete
  /-- `d.gateway.WaitLeadership()`. -/
  | waitLeadership
  /-- `s.UpdateCertificateCache()`. -/
  | updateCertCache
  /-- the manual response is rendered and flushed to the client. -/
  | respondFlush
  /-- `changeMemberRole` promoting the raft node at `address` to voter. -/
  | promote (address : String)
  /-- `autoSyncImages`. -/
  | syncImages
  /-- `cluster.Leave(s, gateway, name, force, pending)`. -/
  | leave (name : String)
  /-- `cluster.Purge` removing the member row. -/
  | purge (name : String)
  /-- `rebalanceMemberRoles` triggered after the removal. -/
  | rebalance
  /-- the plain `response.EmptySyncResponse` of the leader branch. -/
  | respondSync
deriving DecidableEq, Repr

/-- Inputs and external-call outcomes of `clusterNodeDelete`. -/
structure DeleteEnv where
  /-- the `{name}` path parameter. -/
  name : String
  force : Bool
  pending : Bool
  localClusterAddress : String
  /-- result of `s.Cluster.LeaderAddress()`. -/
  leader : String
  /-- `localInfo.Name`: the name of the member at the local address. -/
  localName : String
  /-- `leaderInfo.Name`: the name of the member at the leader address. -/
  leaderName : String
  /-- the raft nodes from the local node database (`tx.GetRaftNodes`). -/
  raftNodes : List RaftNode
  /-- `cluster.Connect` to the leader succeeds. -/
  connectOK : Bool
  /-- the forwarded `DeleteClusterMember` call succeeds. -/
  forwardOK : Bool
  /-- `d.gateway.WaitLeadership()` succeeds. -/
  waitLeadershipOK : Bool
  /-- the promotion `changeMemberRole` RPC succeeds. -/
  promoteOK : Bool
  /-- the pre-removal `autoSyncImages` succeeds. -/
  syncImagesOK : Bool
  /-- `cluster.Leave` succeeds. -/
  leaveOK : Bool
  /-- the address of the removed member returned by `cluster.Leave`. -/
  leaveAddress : String
  /-- the graceful network/storage-pool cleanup on the removed member
  succeeds. -/
  cleanupOK : Bool
  /-- `cluster.Purge` succeeds. -/
  purgeOK : Bool
  /-- the graceful `UpdateCluster(enabled=false)` call resetting the removed
  member succeeds. -/
  resetMemberOK : Bool
  /-- environment of the final `clusterPutDisable` call when the leader
  removed itself. -/
  disableEnv : DisableEnv
deriving DecidableEq, Repr

/-- The non-leader branch of `clusterNodeDelete`
(api_cluster.go:2013-2075): when the member being removed is this member
itself, the process-wide disable lock is acquired before anything else; the
removal is forwarded to the leader; when the removed member is the leader of
a two-node raft configuration, the surviving member waits for leadership and
refreshes its certificate cache; finally the response is rendered and
flushed. -/
def clusterNodeDeleteForward (env : DeleteEnv) : List DeleteEvent × Response :=
  let evs0 : List DeleteEvent := if env.localName = env.name then [.acquireDisableLock] else []
  if ¬env.connectOK then (evs0, .smartError)
  else
    let evs1 := evs0 ++ [.forwardDelete]
    if ¬env.forwardOK then (evs1, .smartError)
    else if env.name = env.leaderName ∧ env.raftNodes.length = 2 then
      let evs2 := evs1 ++ [.waitLeadership]
      if ¬env.waitLeadershipOK then (evs2, .smartError)
      else (evs2 ++ [.updateCertCache, .respondFlush], .manualResponse)
    else (evs1 ++ [.respondFlush], .manualResponse)

/-- The leader branch of `clusterNodeDelete` (api_cluster.go:2077-2218),
under the membership mutex: when the member being removed is the leader
itself of a two-node raft configuration, the remaining non-voter raft node is
first promoted to voter; then images are synced, the member leaves the
cluster (`cluster.Leave`), its row is purged and a rebalance pass runs. -/
def clusterNodeDeleteLeader (env : DeleteEnv) : List DeleteEvent × Response :=
  let evs0 : List DeleteEvent :=
    if env.name = env.leaderName ∧ env.raftNodes.length = 2 then
      match env.raftNodes.find? (fun n => n.address ≠ env.leader ∧ n.role ≠ .voter) with
      | some n => [.promote n.address]
      | none => []
    else []
  if (¬env.promoteOK) ∧ evs0 ≠ [] then (evs0, .smartError)
  else
    let evs1 := evs0 ++ [.syncImages]
    if (¬env.syncImagesOK) ∧ ¬env.force then (evs1, .smartError)
    else
      let evs2 := evs1 ++ [.leave env.name]
      if ¬env.leaveOK then (evs2, .smartError)
      else if (¬env.cleanupOK) ∧ ¬env.force then (evs2, .smartError)
      else
        let evs3 := evs2 ++ [.purge env.name]
        if ¬env.purgeOK then (evs3, .smartError)
        else
          let evs4 := evs3 ++ [.rebalance]
          if env.leaveAddress = env.localClusterAddress then
            (evs4, clusterPutDisable env.disableEnv)
          else if (¬env.resetMemberOK) ∧ ¬env.force then (evs4, .smartError)
          else (evs4 ++ [.updateCertCache, .respondSync], .syncResponse)

/-- `clusterNodeDelete` (api_cluster.go:1957): requests arriving on a
non-leader member are forwarded to the leader, the leader performs the
removal itself. -/
def clusterNodeDelete (env : DeleteEnv) : List DeleteEvent × Response :=
  if env.localClusterAddress ≠ env.leader then clusterNodeDeleteForward env
  else clusterNodeDeleteLeader env

/-! ## Self-removal synchronization (api_cluster.go:2013-2027 and 889-907)

Two threads of the member that removes itself while not being the leader:

* thread A is the `clusterNodeDelete` request handler: it acquires the
  process-wide `clusterPutDisableMu` (api_cluster.go:2019), forwards the
  removal to the leader (2031-2046) — which makes the leader call
  `PUT /1.0/cluster {enabled:false}` back on this member — renders and
  flushes the response to the original client (2059-2074), and only once the
  request context is done releases the lock (2022-2027);
* thread B is the goroutine spawned by `clusterPutDisable`
  (api_cluster.go:889-907) while handling the leader's callback: it waits
  for its own request to finish, then blocks on `clusterPutDisableMu`, and
  only then replaces or exits the daemon process.

The interleaving of the two threads is modelled as a transition system;
program counters advance through the numbered program points listed on each
transition. -/

/-- Joint state of the two threads and the `clusterPutDisableMu` mutex. -/
structure DisableSyncState where
  /-- thread A: 0 initial, 1 lock acquired, 2 removal forwarded to the
  leader, 3 response flushed, 4 request context done, 5 lock released. -/
  pcA : Nat
  /-- thread B: 0 not yet triggered, 1 disable callback finished and waiting
  on the lock, 2 lock acquired and process replaced/exited. -/
  pcB : Nat
  /-- `clusterPutDisableMu` held by thread A. -/
  lockA : Bool
  /-- `clusterPutDisableMu` held by thread B. -/
  lockB : Bool
deriving DecidableEq, Repr

/-- Initial state: neither thread has run, the mutex is free. -/
def DisableSyncState.init : DisableSyncState := ⟨0, 0, false, false⟩

/-- Interleaved small-step semantics of the two threads. -/
inductive DisableSyncStep : DisableSyncState → DisableSyncState → Prop
  /-- A acquires `clusterPutDisableMu` (api_cluster.go:2019). -/
  | aAcquire (s : DisableSyncState) : s.pcA = 0 → s.lockA = false → s.lockB = false →
      DisableSyncStep s { s with pcA := 1, lockA := true }
  /-- A forwards the removal to the leader (api_cluster.go:2031-2046); the
  leader's processing triggers the disable callback on this member. -/
  | aForward (s : DisableSyncState) : s.pcA = 1 →
      DisableSyncStep s { s with pcA := 2 }
  /-- A renders and flushes the response to the original client
  (api_cluster.go:2059-2074). -/
  | aFlush (s : DisableSyncState) : s.pcA = 2 →
      DisableSyncStep s { s with pcA := 3 }
  /-- the original request's context becomes done (api_cluster.go:2023). -/
  | aCtxDone (s : DisableSyncState) : s.pcA = 3 →
      DisableSyncStep s { s with pcA := 4 }
  /-- A releases `clusterPutDisableMu` (api_cluster.go:2026). -/
  | aRelease (s : DisableSyncState) : s.pcA = 4 →
      DisableSyncStep s { s with pcA := 5, lockA := false }
  /-- B comes into existence and its own disable request finishes
  (api_cluster.go:890); this requires the forward of A to have happened. -/
  | bTriggered (s : DisableSyncState) : s.pcB = 0 → 2 ≤ s.pcA →
      DisableSyncStep s { s with pcB := 1 }
  /-- B acquires `clusterPutDisableMu` and replaces/exits the process
  (api_cluster.go:894-906). -/
  | bAcquire (s : DisableSyncState) : s.pcB = 1 → s.lockA = false → s.lockB = false →
      DisableSyncStep s { s with pcB := 2, lockB := true }

/-- A state of the model that can occur during execution. -/
def DisableSyncReachable (s : DisableSyncState) : Prop :=
  Relation.ReflTransGen DisableSyncStep DisableSyncState.init s

/-! ## Activation probe (`cmdActivateifneeded.run`, main_activateifneeded.go:50) -/

/-- An instance as read by the activation probe: the expanded-config keys
`boot.autostart`, `volatile.last_state.power` and `snapshots.schedule`, and
the result of `inst.IsRunning()`. -/
structure Inst where
  autostart : String
  lastStatePower : String
  schedule : String
  running : Bool
deriving DecidableEq, Repr

/-- A custom storage volume as read by the probe: its `snapshots.schedule`
config key. -/
structure Volume where
  schedule : String
deriving DecidableEq, Repr

/-- The on-disk state the probe inspects: existence of the local and global
database files, the configured `core.https_address`, and the contents of the
global database. -/
structure ActivateEnv where
  localDBExists : Bool
  /-- `localConfig.HTTPSAddress()`. -/
  httpsAddress : String
  globalDBExists : Bool
  instances : List Inst
  volumes : List Volume
deriving DecidableEq, Repr

/-- Outcomes of the probe's fallible external calls, in program order. -/
structure ActivateCalls where
  /-- opening the local database and loading the node config succeeds. -/
  localOpenOK : Bool
  /-- opening the global database read-only succeeds. -/
  globalOpenOK : Bool
  /-- `instance.LoadNodeAll` succeeds. -/
  loadInstancesOK : Bool
  /-- the custom-volume transaction succeeds. -/
  loadVolumesOK : Bool
deriving DecidableEq, Repr

/-- `instanceShouldAutoStart` (incusd/network_zones_records.go:693):
`boot.autostart` is true, or unset while `volatile.last_state.power` records
the running state.  `isTrue` is `util.IsTrue` and `powerRunning` is
`instance.PowerStateRunning`, both external to the verified slice and passed
as parameters. -/
def instanceShouldAutoStart (isTrue : String → Bool) (powerRunning : String)
    (inst : Inst) : Bool :=
  isTrue inst.autostart || (inst.autostart = "" && inst.lastStatePower = powerRunning)

/-- The instance loop of the probe (main_activateifneeded.go:121-141): the
first instance that should auto-start, is running, or has a non-empty
`snapshots.schedule` triggers activation. -/
def checkInstances (isTrue : String → Bool) (powerRunning : String) :
    List Inst → Bool
  | [] => false
  | inst :: rest =>
    if instanceShouldAutoStart isTrue powerRunning inst then true
    else if inst.running then true
    else if inst.schedule ≠ "" then true
    else checkInstances isTrue powerRunning rest

/-- The volume loop of the probe (main_activateifneeded.go:157-163). -/
def checkVolumes : List Volume → Bool
  | [] => false
  | vol :: rest => if vol.schedule ≠ "" then true else checkVolumes rest

/-- `cmdActivateifneeded.run` (main_activateifneeded.go:50): returns
`some b` when the probe completes, where `b` says whether it attempted
daemon startup (a connection to the local unix socket), and `none` when it
failed with an error (in which case no startup was attempted either). -/
def activateRun (isTrue : String → Bool) (powerRunning : String)
    (io : ActivateCalls) (env : ActivateEnv) : Option Bool :=
  if ¬env.localDBExists then some false
  else if ¬io.localOpenOK then none
  else if env.httpsAddress ≠ "" then some true
  else if ¬env.globalDBExists then some false
  else if ¬io.globalOpenOK then none
  else if ¬io.loadInstancesOK then none
  else if checkInstances isTrue powerRunning env.instances then some true
  else if ¬io.loadVolumesOK then none
  else if checkVolumes env.volumes then some true
  else some false

/-- Consistency of the probe's view of the databases: an absent local
database means the daemon never ran here, so no address is configured and
the global database holds nothing; an absent global database holds no
instances and no volumes. -/
def ActivateEnv.Wellformed (env : ActivateEnv) : Prop :=
  (env.localDBExists = false →
    env.httpsAddress = "" ∧ env.globalDBExists = false) ∧
  (env.globalDBExists = false → env.instances = [] ∧ env.volumes = [])

/-! # Theorems -/

/-- C1, counterexample: the claim quantifies over every `PUT /1.0/cluster`
request, but a request that is dispatched to the join branch while carrying
no cluster certificate is answered with a synchronous `BadRequest`, not with
an asynchronous operation (api_cluster.go:410-412). -/
theorem clusterPut_join_branch_sync_reject :
    clusterPutBranch "@" ⟨"n2", true, "10.0.0.1:8443", "", "10.0.0.2:8443"⟩ =
      ClusterPutBranch.join ∧
    clusterPut "@" ⟨true, true, true, true⟩ ⟨true, true⟩
      ⟨false, true, "", true, true, true⟩
      ⟨"n2", true, "10.0.0.1:8443", "", "10.0.0.2:8443"⟩ = Response.badRequest ∧
    Response.badRequest ≠ Response.operationResponse := by
  refine ⟨rfl, rfl, by decide⟩

/-- C1, amended: for every `PUT /1.0/cluster` request that passes the quick
checks of `clusterPut`, `enabled=false` runs the dissolve handler, an empty
`cluster_address` runs the bootstrap handler and any other request runs the
join handler; the bootstrap and join branches return an asynchronous
operation whenever their synchronous validations and the operation creation
succeed. -/
theorem clusterPut_branch_dispatch (groupPfx : String) (dEnv : DisableEnv)
    (bEnv : BootstrapEnv) (jEnv : JoinEnv) (req : ClusterPutReq)
    (hqc : clusterPutBranch groupPfx req ≠ .invalid) :
    (req.enabled = false →
      clusterPut groupPfx dEnv bEnv jEnv req = clusterPutDisable dEnv) ∧
    (req.enabled = true → req.clusterAddress = "" →
      clusterPutBranch groupPfx req = .bootstrap ∧
      (bEnv.configTxOK = true → bEnv.opCreateOK = true →
        clusterPut groupPfx dEnv bEnv jEnv req = .operationResponse)) ∧
    (req.enabled = true → req.clusterAddress ≠ "" →
      clusterPutBranch groupPfx req = .join ∧
      (req.clusterCertificate ≠ "" → jEnv.serverClustered = false →
        req.serverAddress ≠ "" → jEnv.serverAddressValid = true →
        (jEnv.localClusterAddress ≠ "" → jEnv.addressCovered = true) →
        (jEnv.localClusterAddress = "" → jEnv.addressConfigOK = true) →
        jEnv.opCreateOK = true →
        clusterPut groupPfx dEnv bEnv jEnv req = .operationResponse)) := by
  refine ⟨?_, ?_, ?_⟩
  · intro hen
    have hbr : clusterPutBranch groupPfx req = .disable := by
      unfold clusterPutBranch at hqc ⊢
      by_cases hs : req.serverName = "" <;> simp [hen, hs] at hqc ⊢
    simp [clusterPut, hbr]
  · intro hen haddr
    have hbr : clusterPutBranch groupPfx req = .bootstrap := by
      unfold clusterPutBranch at hqc ⊢
      by_cases hs : req.serverName = "" <;>
        by_cases hp : groupPfx.data.isPrefixOf req.serverName.data <;>
          simp [hen, haddr, hs, hp] at hqc ⊢
    refine ⟨hbr, fun h1 h2 => ?_⟩
    simp [clusterPut, hbr, clusterPutBootstrap, h1, h2]
  · intro hen haddr
    have hbr : clusterPutBranch groupPfx req = .join := by
      unfold clusterPutBranch at hqc ⊢
      by_cases hs : req.serverName = "" <;>
        by_cases hp : groupPfx.data.isPrefixOf req.serverName.data <;>
          simp [hen, haddr, hs, hp] at hqc ⊢
    refine ⟨hbr, fun h1 h2 h3 h4 h5 h6 h7 => ?_⟩
    by_cases hl : jEnv.localClusterAddress = ""
    · simp [clusterPut, hbr, clusterPutJoin, h1, h2, h3, h4, hl, h6 hl, h7]
    · simp [clusterPut, hbr, clusterPutJoin, h1, h2, h3, h4, hl, h5 hl, h7]

/-- Witness for `clusterPut_branch_dispatch` at concrete requests exercising
all three branches. -/
theorem clusterPut_branch_dispatch_witness :
    (clusterPut "@" ⟨true, true, true, true⟩ ⟨true, true⟩
        ⟨false, true, "", true, true, true⟩ ⟨"", false, "", "", ""⟩ =
      clusterPutDisable ⟨true, true, true, true⟩) ∧
    (clusterPut "@" ⟨true, true, true, true⟩ ⟨true, true⟩
        ⟨false, true, "", true, true, true⟩ ⟨"n1", true, "", "", ""⟩ =
      Response.operationResponse) ∧
    (clusterPut "@" ⟨true, true, true, true⟩ ⟨true, true⟩
        ⟨false, true, "", true, true, true⟩
        ⟨"n2", true, "10.0.0.1:8443", "cert", "10.0.0.2:8443"⟩ =
      Response.operationResponse) := by
  refine ⟨?_, ?_, ?_⟩
  · exact (clusterPut_branch_dispatch "@" ⟨true, true, true, true⟩ ⟨true, true⟩
      ⟨false, true, "", true, true, true⟩ ⟨"", false, "", "", ""⟩ (by decide)).1 rfl
  · exact ((clusterPut_branch_dispatch "@" ⟨true, true, true, true⟩ ⟨true, true⟩
      ⟨false, true, "", true, true, true⟩ ⟨"n1", true, "", "", ""⟩ (by decide)).2.1
      rfl rfl).2 rfl rfl
  · exact ((clusterPut_branch_dispatch "@" ⟨true, true, true, true⟩ ⟨true, true⟩
      ⟨false, true, "", true, true, true⟩
      ⟨"n2", true, "10.0.0.1:8443", "cert", "10.0.0.2:8443"⟩ (by decide)).2.2
      rfl (by decide)).2 (by decide) rfl (by decide) rfl
      (fun h => by simp at h) (fun h => rfl) rfl

/-- After the cancellation loop no operation of the old list is still a
running join token for the requested name. -/
theorem runningTokensFor_cancelMatching (s : String) (ops : List Operation) :
    runningTokensFor s (cancelMatching s ops) = [] := by
  induction ops with
  | nil => rfl
  | cons op rest ih =>
    unfold cancelMatching runningTokensFor at ih ⊢
    by_cases hc : op.opType = OpType.clusterJoinToken ∧ op.status = OpStatus.running ∧
        op.serverName = some s
    · simpa [List.filter_cons, hc] using ih
    · simpa [List.filter_cons, hc] using ih

/-- A successful member-collection transaction yields exactly the addresses
of the members that are neither evacuated nor offline. -/
theorem collectAddresses_ok (isOff : NodeInfo → Bool) (s : String) :
    ∀ ms l, collectAddresses isOff s ms = .ok l → l = onlineAddresses isOff ms := by
  intro ms
  induction ms with
  | nil =>
    intro l h
    simp [collectAddresses] at h
    simp [onlineAddresses, ← h]
  | cons m rest ih =>
    intro l h
    unfold collectAddresses at h
    by_cases h1 : m.name = s
    · simp [h1] at h
    · by_cases h2 : m.state = MemberState.evacuated ∨ isOff m = true
      · rw [if_neg h1, if_pos h2] at h
        rw [ih l h]
        have hcond : ¬(¬m.state = MemberState.evacuated ∧ isOff m = false) := by
          rcases h2 with h3 | h3 <;> intro hc <;> simp [h3] at hc
        simp [onlineAddresses, List.filter_cons, if_neg hcond]
      · rw [if_neg h1, if_neg h2] at h
        have hcond : ¬m.state = MemberState.evacuated ∧ isOff m = false := by
          simpa [not_or] using h2
        cases hres : collectAddresses isOff s rest with
        | error e => rw [hres] at h; simp [Except.map] at h
        | ok l2 =>
          rw [hres] at h
          simp [Except.map] at h
          rw [← h, ih l2 hres]
          simp [onlineAddresses, List.filter_cons, if_pos hcond]

/-- The member-collection transaction fails as soon as some member already
carries the requested name, whatever that member's state. -/
theorem collectAddresses_error (isOff : NodeInfo → Bool) (s : String) :
    ∀ ms, (∃ m ∈ ms, m.name = s) → collectAddresses isOff s ms = .error () := by
  intro ms
  induction ms with
  | nil => rintro ⟨m, hm, _⟩; simp at hm
  | cons m rest ih =>
    rintro ⟨m2, hm2, hname⟩
    unfold collectAddresses
    rcases List.mem_cons.mp hm2 with heq | hmem
    · subst heq; simp [hname]
    · by_cases h1 : m.name = s
      · simp [h1]
      · rw [if_neg h1, ih ⟨m2, hmem, hname⟩]
        by_cases h2 : m.state = MemberState.evacuated ∨ isOff m = true
        · simp [h2]
        · simp [h2, Except.map]

/-- C2: after any successful `POST /1.0/cluster/members` for server name
`S`, at most one join-token operation for `S` is running — namely the newly
created one: the issuance cancelled every previously running join-token
operation whose `serverName` metadata equals `S`. -/
theorem joinToken_running_unique (isOff : NodeInfo → Bool) (env : NodesPostEnv)
    (st : TokenState) (req : ClusterMembersPost) (op : Operation)
    (h : (clusterNodesPost isOff env st req).newOp = some op) :
    runningTokensFor req.serverName (clusterNodesPost isOff env st req).ops = [op] := by
  by_cases c1 : st.serverClustered
  case neg => simp [clusterNodesPost, c1] at h
  all_goals by_cases c2 : env.expiryOK
  case neg => simp [clusterNodesPost, c1, c2] at h
  all_goals cases hres : collectAddresses isOff req.serverName st.members with
  | error e => simp [clusterNodesPost, c1, c2, hres] at h
  | ok addrs =>
  by_cases c3 : addrs.length < 1
  case pos => simp [clusterNodesPost, c1, c2, hres, c3] at h
  all_goals by_cases c4 : env.opsGetOK
  case neg => simp [clusterNodesPost, c1, c2, hres, c3, c4] at h
  all_goals by_cases c5 : env.secretOK
  case neg => simp [clusterNodesPost, c1, c2, hres, c3, c4, c5] at h
  all_goals by_cases c6 : env.fingerprintOK
  case neg => simp [clusterNodesPost, c1, c2, hres, c3, c4, c5, c6] at h
  all_goals by_cases c7 : env.opCreateOK
  case neg => simp [clusterNodesPost, c1, c2, hres, c3, c4, c5, c6, c7] at h
  all_goals
  have key : clusterNodesPost isOff env st req =
      ⟨.operationResponse,
        some ⟨env.newOpId, .clusterJoinToken, .running, some req.serverName, addrs⟩,
        cancelMatching req.serverName st.ops ++
          [⟨env.newOpId, .clusterJoinToken, .running, some req.serverName, addrs⟩]⟩ := by
    simp [clusterNodesPost, c1, c2, hres, c3, c4, c5, c6, c7]
  rw [key] at h ⊢
  simp only [Option.some.injEq] at h
  rw [← h]
  have hnil := runningTokensFor_cancelMatching req.serverName st.ops
  unfold runningTokensFor at hnil ⊢
  rw [List.filter_append, hnil]
  simp

/-- Witness for `joinToken_running_unique`: issuing a token for `n4` while an
older token operation for `n4` is still running leaves exactly the new
operation running. -/
theorem joinToken_running_unique_witness :
    (clusterNodesPost (fun _ => false) ⟨true, true, true, true, true, 7⟩
      ⟨true, [⟨"n1", "10.0.0.1:8443", .created⟩],
        [⟨3, .clusterJoinToken, .running, some "n4", ["10.0.0.1:8443"]⟩]⟩
      ⟨"n4"⟩).newOp =
        some ⟨7, .clusterJoinToken, .running, some "n4", ["10.0.0.1:8443"]⟩ ∧
    runningTokensFor "n4"
      (clusterNodesPost (fun _ => false) ⟨true, true, true, true, true, 7⟩
        ⟨true, [⟨"n1", "10.0.0.1:8443", .created⟩],
          [⟨3, .clusterJoinToken, .running, some "n4", ["10.0.0.1:8443"]⟩]⟩
        ⟨"n4"⟩).ops =
      [⟨7, .clusterJoinToken, .running, some "n4", ["10.0.0.1:8443"]⟩] := by
  refine ⟨rfl, joinToken_running_unique (fun _ => false) ⟨true, true, true, true, true, 7⟩
    ⟨true, [⟨"n1", "10.0.0.1:8443", .created⟩],
      [⟨3, .clusterJoinToken, .running, some "n4", ["10.0.0.1:8443"]⟩]⟩
    ⟨"n4"⟩ ⟨7, .clusterJoinToken, .running, some "n4", ["10.0.0.1:8443"]⟩ rfl⟩

/-- C3: the metadata of a successfully created join token lists exactly the
addresses of the members that are neither evacuated nor offline, and when no
such member exists the handler fails without creating a token operation. -/
theorem joinToken_addresses (isOff : NodeInfo → Bool) (env : NodesPostEnv)
    (st : TokenState) (req : ClusterMembersPost) :
    (∀ op, (clusterNodesPost isOff env st req).newOp = some op →
      op.addresses = onlineAddresses isOff st.members) ∧
    (onlineAddresses isOff st.members = [] →
      (clusterNodesPost isOff env st req).newOp = none ∧
      (clusterNodesPost isOff env st req).ops = st.ops ∧
      (clusterNodesPost isOff env st req).resp ≠ .operationResponse) := by
  constructor
  · intro op h
    by_cases c1 : st.serverClustered
    case neg => simp [clusterNodesPost, c1] at h
    all_goals by_cases c2 : env.expiryOK
    case neg => simp [clusterNodesPost, c1, c2] at h
    all_goals cases hres : collectAddresses isOff req.serverName st.members with
    | error e => simp [clusterNodesPost, c1, c2, hres] at h
    | ok addrs =>
    by_cases c3 : addrs.length < 1
    case pos => simp [clusterNodesPost, c1, c2, hres, c3] at h
    all_goals by_cases c4 : env.opsGetOK
    case neg => simp [clusterNodesPost, c1, c2, hres, c3, c4] at h
    all_goals by_cases c5 : env.secretOK
    case neg => simp [clusterNodesPost, c1, c2, hres, c3, c4, c5] at h
    all_goals by_cases c6 : env.fingerprintOK
    case neg => simp [clusterNodesPost, c1, c2, hres, c3, c4, c5, c6] at h
    all_goals by_cases c7 : env.opCreateOK
    case neg => simp [clusterNodesPost, c1, c2, hres, c3, c4, c5, c6, c7] at h
    all_goals
    simp [clusterNodesPost, c1, c2, hres, c3, c4, c5, c6, c7] at h
    rw [← collectAddresses_ok isOff req.serverName st.members addrs hres, ← h]
  · intro hempty
    by_cases c1 : st.serverClustered
    case neg => simp [clusterNodesPost, c1]
    all_goals by_cases c2 : env.expiryOK
    case neg => simp [clusterNodesPost, c1, c2]
    all_goals cases hres : collectAddresses isOff req.serverName st.members with
    | error e => simp [clusterNodesPost, c1, c2, hres]
    | ok addrs =>
    have haddrs : addrs = [] := by
      rw [collectAddresses_ok isOff req.serverName st.members addrs hres, hempty]
    simp [clusterNodesPost, c1, c2, hres, haddrs]

/-- C10: a `POST /1.0/cluster/members` whose `server_name` matches an
existing member — whatever its state — fails before any join-token operation
is cancelled or created: the operations are left untouched. -/
theorem joinToken_existing_name_rejected (isOff : NodeInfo → Bool)
    (env : NodesPostEnv) (st : TokenState) (req : ClusterMembersPost)
    (h : ∃ m ∈ st.members, m.name = req.serverName) :
    (clusterNodesPost isOff env st req).newOp = none ∧
    (clusterNodesPost isOff env st req).ops = st.ops ∧
    (clusterNodesPost isOff env st req).resp ≠ .operationResponse := by
  have herr := collectAddresses_error isOff req.serverName st.members h
  by_cases c1 : st.serverClustered
  · by_cases c2 : env.expiryOK
    · simp [clusterNodesPost, c1, c2, herr]
    · simp [clusterNodesPost, c1, c2]
  · simp [clusterNodesPost, c1]

/-- Witness for `joinToken_addresses`: with one healthy and one evacuated
member the token lists only the healthy member's address, and with only an
evacuated member the handler fails leaving the operations untouched. -/
theorem joinToken_addresses_witness :
    ((⟨9, .clusterJoinToken, .running, some "n3", ["a1"]⟩ : Operation).addresses =
      onlineAddresses (fun _ => false)
        [⟨"n1", "a1", .created⟩, ⟨"n2", "a2", .evacuated⟩]) ∧
    ((clusterNodesPost (fun _ => false) ⟨true, true, true, true, true, 9⟩
        ⟨true, [⟨"n1", "a1", .evacuated⟩],
          [⟨1, .clusterJoinToken, .running, some "n3", []⟩]⟩ ⟨"n3"⟩).newOp = none ∧
      (clusterNodesPost (fun _ => false) ⟨true, true, true, true, true, 9⟩
        ⟨true, [⟨"n1", "a1", .evacuated⟩],
          [⟨1, .clusterJoinToken, .running, some "n3", []⟩]⟩ ⟨"n3"⟩).ops =
        [⟨1, .clusterJoinToken, .running, some "n3", []⟩] ∧
      (clusterNodesPost (fun _ => false) ⟨true, true, true, true, true, 9⟩
        ⟨true, [⟨"n1", "a1", .evacuated⟩],
          [⟨1, .clusterJoinToken, .running, some "n3", []⟩]⟩ ⟨"n3"⟩).resp ≠
        .operationResponse) := by
  refine ⟨(joinToken_addresses (fun _ => false) ⟨true, true, true, true, true, 9⟩
      ⟨true, [⟨"n1", "a1", .created⟩, ⟨"n2", "a2", .evacuated⟩], []⟩ ⟨"n3"⟩).1
      ⟨9, .clusterJoinToken, .running, some "n3", ["a1"]⟩ rfl,
    (joinToken_addresses (fun _ => false) ⟨true, true, true, true, true, 9⟩
      ⟨true, [⟨"n1", "a1", .evacuated⟩],
        [⟨1, .clusterJoinToken, .running, some "n3", []⟩]⟩ ⟨"n3"⟩).2 rfl⟩

/-- Witness for `joinToken_existing_name_rejected`: requesting a token for
the name of an evacuated member fails and leaves the running token list
untouched. -/
theorem joinToken_existing_name_rejected_witness :
    (clusterNodesPost (fun _ => false) ⟨true, true, true, true, true, 5⟩
      ⟨true, [⟨"n2", "a2", .evacuated⟩],
        [⟨1, .clusterJoinToken, .running, some "n2", []⟩]⟩ ⟨"n2"⟩).newOp = none ∧
    (clusterNodesPost (fun _ => false) ⟨true, true, true, true, true, 5⟩
      ⟨true, [⟨"n2", "a2", .evacuated⟩],
        [⟨1, .clusterJoinToken, .running, some "n2", []⟩]⟩ ⟨"n2"⟩).ops =
      [⟨1, .clusterJoinToken, .running, some "n2", []⟩] ∧
    (clusterNodesPost (fun _ => false) ⟨true, true, true, true, true, 5⟩
      ⟨true, [⟨"n2", "a2", .evacuated⟩],
        [⟨1, .clusterJoinToken, .running, some "n2", []⟩]⟩ ⟨"n2"⟩).resp ≠
      .operationResponse :=
  joinToken_existing_name_rejected (fun _ => false) ⟨true, true, true, true, true, 5⟩
    ⟨true, [⟨"n2", "a2", .evacuated⟩],
      [⟨1, .clusterJoinToken, .running, some "n2", []⟩]⟩ ⟨"n2"⟩
    ⟨⟨"n2", "a2", .evacuated⟩, by simp, rfl⟩

/-- C4, counterexample: on a member whose local cluster address differs from
the leader address, each of the accept, rebalance and handover handlers
answers with `SyncResponseRedirect` — the request is redirected to the
leader, not proxied (api_cluster.go:2259, 2344, 2594). -/
theorem internal_raft_endpoints_redirect_cex :
    internalClusterPostAccept ⟨"10.0.0.2:8443", some "10.0.0.1:8443"⟩
      ⟨true, true, true⟩ "n2" =
      .syncResponseRedirect "https://10.0.0.1:8443/internal/cluster/accept" ∧
    (internalClusterPostAccept ⟨"10.0.0.2:8443", some "10.0.0.1:8443"⟩
      ⟨true, true, true⟩ "n2").isRedirect = true ∧
    (internalClusterPostRebalance ⟨"10.0.0.2:8443", some "10.0.0.1:8443"⟩
      true).isRedirect = true ∧
    (internalClusterPostHandover ⟨"10.0.0.2:8443", some "10.0.0.1:8443"⟩
      ⟨true, "10.0.0.3:8443", [], true, true⟩ "10.0.0.2:8443").resp.isRedirect = true := by
  exact ⟨rfl, rfl, rfl, rfl⟩

/-- C4, amended: every request to `/internal/cluster/accept`, `rebalance` or
`handover` that arrives (well-formed) on a member whose local cluster address
differs from the known, non-empty leader address is answered with a redirect
to the same endpoint on the leader, with no local action taken. -/
theorem internal_raft_endpoints_redirect (lv : LeaderView) (leader : String)
    (envA : AcceptEnv) (rebalanceOK : Bool) (envH : HandoverEnv) (name addr : String)
    (hl : lv.leaderAddress = some leader) (hne : leader ≠ "")
    (hdiff : lv.localClusterAddress ≠ leader) (hname : name ≠ "") (haddr : addr ≠ "") :
    internalClusterPostAccept lv envA name =
      .syncResponseRedirect ("https://" ++ leader ++ "/internal/cluster/accept") ∧
    internalClusterPostRebalance lv rebalanceOK =
      .syncResponseRedirect ("https://" ++ leader ++ "/internal/cluster/rebalance") ∧
    internalClusterPostHandover lv envH addr =
      ⟨.syncResponseRedirect ("https://" ++ leader ++ "/internal/cluster/handover"), []⟩ := by
  unfold internalClusterPostAccept internalClusterPostRebalance internalClusterPostHandover
  rw [hl]
  simp [hname, haddr, hne, hdiff]

/-- Witness for `internal_raft_endpoints_redirect` at a concrete non-leader
member. -/
theorem internal_raft_endpoints_redirect_witness :
    internalClusterPostAccept ⟨"10.0.0.3:8443", some "10.0.0.1:8443"⟩
      ⟨true, true, true⟩ "n5" =
      .syncResponseRedirect "https://10.0.0.1:8443/internal/cluster/accept" ∧
    internalClusterPostRebalance ⟨"10.0.0.3:8443", some "10.0.0.1:8443"⟩ true =
      .syncResponseRedirect "https://10.0.0.1:8443/internal/cluster/rebalance" ∧
    internalClusterPostHandover ⟨"10.0.0.3:8443", some "10.0.0.1:8443"⟩
      ⟨true, "", [], true, true⟩ "10.0.0.3:8443" =
      ⟨.syncResponseRedirect "https://10.0.0.1:8443/internal/cluster/handover", []⟩ :=
  internal_raft_endpoints_redirect ⟨"10.0.0.3:8443", some "10.0.0.1:8443"⟩
    "10.0.0.1:8443" ⟨true, true, true⟩ true ⟨true, "", [], true, true⟩ "n5"
    "10.0.0.3:8443" rfl (by decide) (by decide) (by decide) (by decide)

/-- The `findLeader` loop never posts the handover request to the departing
member itself: a `post` event always targets a leader address different from
the local one. -/
theorem handoverFindLeader_post_ne (localAddr : String) (tOK : Bool) :
    ∀ leaders l, HandoverEvent.post l ∈ (handoverFindLeader localAddr tOK leaders).1 →
      l ≠ localAddr := by
  intro leaders
  induction leaders with
  | nil => intro l h; simp [handoverFindLeader] at h
  | cons hd rest ih =>
    intro l h
    cases hd with
    | none => simp [handoverFindLeader] at h
    | some leader =>
      by_cases he : leader = ""
      · simp [handoverFindLeader, he] at h
      · by_cases hl : leader = localAddr
        · by_cases ht : tOK
          · rcases hrec : handoverFindLeader localAddr tOK rest with ⟨evs, ok⟩
            rw [handoverFindLeader, if_neg he, if_pos hl, if_neg (by simp [ht]), hrec] at h
            simp only [List.mem_cons] at h
            rcases h with h | h
            · exact absurd h (by simp)
            · exact ih l (by rw [hrec]; exact h)
          · rw [handoverFindLeader, if_neg he, if_pos hl, if_pos (by simp [ht])] at h
            simp at h
        · rw [handoverFindLeader, if_neg he, if_neg hl] at h
          simp at h
          rw [h]
          exact hl

/-- C6: handover protocol.  On the leader: with no replacement candidate the
handover succeeds without issuing any role change; with a candidate the
promotion `assign` RPC to the candidate strictly precedes the demotion
`assign` RPC that sets the departing address to spare.  On the departing
member: the handover request is only ever posted to a leader other than
itself, and when the leader lookup returns the member itself the first event
is a leadership transfer followed by a retry. -/
theorem handover_promote_then_demote (lv : LeaderView) (env : HandoverEnv)
    (reqAddr localAddr : String) (tOK : Bool) (leaders rest : List (Option String))
    (h1 : reqAddr ≠ "") (h2 : lv.leaderAddress = some lv.localClusterAddress)
    (h3 : lv.localClusterAddress ≠ "") (h4 : env.handoverOK = true) :
    (env.target = "" →
      internalClusterPostHandover lv env reqAddr = ⟨.syncResponse, []⟩) ∧
    (env.target ≠ "" → env.promoteOK = true → env.demoteOK = true →
      internalClusterPostHandover lv env reqAddr =
        ⟨.syncResponse,
          [(env.target, env.nodes), (reqAddr, demoteToSpare reqAddr env.nodes)]⟩) ∧
    (∀ l, HandoverEvent.post l ∈ (handoverFindLeader localAddr tOK leaders).1 →
      l ≠ localAddr) ∧
    (localAddr ≠ "" →
      (handoverFindLeader localAddr tOK (some localAddr :: rest)).1.head? =
        some HandoverEvent.transfer) := by
  refine ⟨?_, ?_, handoverFindLeader_post_ne localAddr tOK leaders, ?_⟩
  · intro ht
    unfold internalClusterPostHandover
    rw [h2]
    simp [h1, h3, h4, ht]
  · intro ht hp hd
    unfold internalClusterPostHandover
    rw [h2]
    simp [h1, h3, h4, ht, hp, hd]
  · intro hloc
    by_cases htr : tOK
    · rcases hrec : handoverFindLeader localAddr tOK rest with ⟨evs, ok⟩
      rw [handoverFindLeader, if_neg hloc, if_pos rfl, if_neg (by simp [htr]), hrec]
      rfl
    · rw [handoverFindLeader, if_neg hloc, if_pos rfl, if_pos (by simp [htr])]
      rfl

/-- Witness for `handover_promote_then_demote` on a concrete three-member
cluster handing the voter seat of `10.0.0.3` over to `10.0.0.4`. -/
theorem handover_promote_then_demote_witness :
    internalClusterPostHandover ⟨"10.0.0.1:8443", some "10.0.0.1:8443"⟩
      ⟨true, "10.0.0.4:8443",
        [⟨1, "10.0.0.1:8443", .voter, "n1"⟩, ⟨3, "10.0.0.3:8443", .voter, "n3"⟩,
          ⟨4, "10.0.0.4:8443", .spare, "n4"⟩], true, true⟩ "10.0.0.3:8443" =
      ⟨.syncResponse,
        [("10.0.0.4:8443",
          [⟨1, "10.0.0.1:8443", .voter, "n1"⟩, ⟨3, "10.0.0.3:8443", .voter, "n3"⟩,
            ⟨4, "10.0.0.4:8443", .spare, "n4"⟩]),
         ("10.0.0.3:8443",
          [⟨1, "10.0.0.1:8443", .voter, "n1"⟩, ⟨3, "10.0.0.3:8443", .spare, "n3"⟩,
            ⟨4, "10.0.0.4:8443", .spare, "n4"⟩])]⟩ := by
  have h := (handover_promote_then_demote ⟨"10.0.0.1:8443", some "10.0.0.1:8443"⟩
    ⟨true, "10.0.0.4:8443",
      [⟨1, "10.0.0.1:8443", .voter, "n1"⟩, ⟨3, "10.0.0.3:8443", .voter, "n3"⟩,
        ⟨4, "10.0.0.4:8443", .spare, "n4"⟩], true, true⟩ "10.0.0.3:8443"
    "10.0.0.2:8443" true [] [] (by decide) rfl (by decide) rfl).2.1
    (by decide) rfl rfl
  rw [h]
  rfl

/-- Every `DemoteOfflineNode` call of a rebalance pass targets a member whose
wanted role is spare and whose connectivity probe failed. -/
theorem rebalance_demote_unreachable (reach : String → Bool) (aOK dOK : Bool) :
    ∀ (oracle : List (String × List RaftNode)) (id : Nat),
    RebalanceAction.demoteOffline id ∈ rebalanceMemberRoles reach aOK dOK oracle →
      ∃ p ∈ oracle, ∃ n : RaftNode, p.2.find? (fun x => x.address = p.1) = some n ∧
        n.id = id ∧ n.role = .spare ∧ reach p.1 = false := by
  intro oracle
  induction oracle with
  | nil => intro id h; simp [rebalanceMemberRoles] at h
  | cons hd tl ih =>
    obtain ⟨addr0, nodes0⟩ := hd
    intro id h
    rw [rebalanceMemberRoles] at h
    by_cases ha : addr0 = ""
    · rw [if_pos ha] at h; simp at h
    · rw [if_neg ha] at h
      cases hfind : nodes0.find? (fun x => x.address = addr0) with
      | some n0 =>
        rw [hfind] at h
        dsimp only [] at h
        by_cases hrole : n0.role = RaftRole.spare
        · rw [if_neg (not_not_intro hrole)] at h
          by_cases hreach : reach addr0 = true
          · rw [if_pos hreach] at h
            simp only [List.mem_cons] at h
            rcases h with hc | hc
            · exact absurd hc (by simp)
            · by_cases haok : aOK = true
              · rw [if_pos haok] at hc
                obtain ⟨p, hp, hrest⟩ := ih id hc
                exact ⟨p, List.mem_cons_of_mem _ hp, hrest⟩
              · rw [if_neg haok] at hc; simp at hc
          · have hreach2 : reach addr0 = false := by simpa using hreach
            rw [if_neg hreach] at h
            simp only [List.mem_cons] at h
            rcases h with hc | hc
            · injection hc with hid
              exact ⟨(addr0, nodes0), List.mem_cons_self _ _, n0, hfind, hid.symm, hrole,
                hreach2⟩
            · by_cases hdok : dOK = true
              · rw [if_pos hdok] at hc
                obtain ⟨p, hp, hrest⟩ := ih id hc
                exact ⟨p, List.mem_cons_of_mem _ hp, hrest⟩
              · rw [if_neg hdok] at hc; simp at hc
        · rw [if_pos hrole] at h
          by_cases hreach : reach addr0 = true
          · rw [if_neg (not_not_intro hreach)] at h
            simp only [List.mem_cons] at h
            rcases h with hc | hc
            · exact absurd hc (by simp)
            · by_cases haok : aOK = true
              · rw [if_pos haok] at hc
                obtain ⟨p, hp, hrest⟩ := ih id hc
                exact ⟨p, List.mem_cons_of_mem _ hp, hrest⟩
              · rw [if_neg haok] at hc; simp at hc
          · rw [if_pos hreach] at h; simp at h
      | none =>
        rw [hfind] at h
        dsimp only [] at h
        simp only [List.mem_cons] at h
        rcases h with hc | hc
        · exact absurd hc (by simp)
        · by_cases haok : aOK = true
          · rw [if_pos haok] at hc
            obtain ⟨p, hp, hrest⟩ := ih id hc
            exact ⟨p, List.mem_cons_of_mem _ hp, hrest⟩
          · rw [if_neg haok] at hc; simp at hc

/-- Every `assign` RPC of a rebalance pass whose target's wanted role is a
promotion (not spare) was preceded by a successful connectivity probe. -/
theorem rebalance_assign_probed (reach : String → Bool) (aOK dOK : Bool) :
    ∀ (oracle : List (String × List RaftNode)) (addr : String) (nodes : List RaftNode),
    RebalanceAction.assign addr nodes ∈ rebalanceMemberRoles reach aOK dOK oracle →
      ∀ n : RaftNode, nodes.find? (fun x => x.address = addr) = some n →
        n.role ≠ .spare → reach addr = true := by
  intro oracle
  induction oracle with
  | nil => intro addr nodes h; simp [rebalanceMemberRoles] at h
  | cons hd tl ih =>
    obtain ⟨addr0, nodes0⟩ := hd
    intro addr nodes h n hfindn hrole
    rw [rebalanceMemberRoles] at h
    by_cases ha : addr0 = ""
    · rw [if_pos ha] at h; simp at h
    · rw [if_neg ha] at h
      cases hfind : nodes0.find? (fun x => x.address = addr0) with
      | some n0 =>
        rw [hfind] at h
        dsimp only [] at h
        by_cases hrole0 : n0.role = RaftRole.spare
        · rw [if_neg (not_not_intro hrole0)] at h
          by_cases hreach : reach addr0 = true
          · rw [if_pos hreach] at h
            simp only [List.mem_cons] at h
            rcases h with hc | hc
            · injection hc with h1 h2
              subst h1
              exact hreach
            · by_cases haok : aOK = true
              · rw [if_pos haok] at hc
                exact ih addr nodes hc n hfindn hrole
              · rw [if_neg haok] at hc; simp at hc
          · rw [if_neg hreach] at h
            simp only [List.mem_cons] at h
            rcases h with hc | hc
            · exact absurd hc (by simp)
            · by_cases hdok : dOK = true
              · rw [if_pos hdok] at hc
                exact ih addr nodes hc n hfindn hrole
              · rw [if_neg hdok] at hc; simp at hc
        · rw [if_pos hrole0] at h
          by_cases hreach : reach addr0 = true
          · rw [if_neg (not_not_intro hreach)] at h
            simp only [List.mem_cons] at h
            rcases h with hc | hc
            · injection hc with h1 h2
              subst h1
              exact hreach
            · by_cases haok : aOK = true
              · rw [if_pos haok] at hc
                exact ih addr nodes hc n hfindn hrole
              · rw [if_neg haok] at hc; simp at hc
          · rw [if_pos hreach] at h; simp at h
      | none =>
        rw [hfind] at h
        dsimp only [] at h
        simp only [List.mem_cons] at h
        rcases h with hc | hc
        · injection hc with h1 h2
          subst h1
          subst h2
          rw [hfindn] at hfind
          exact absurd hfind (by simp)
        · by_cases haok : aOK = true
          · rw [if_pos haok] at hc
            exact ih addr nodes hc n hfindn hrole
          · rw [if_neg haok] at hc; simp at hc

/-- C7: in every rebalance pass, a promotion (wanted role not spare) issues
the assign RPC only after a successful connectivity probe and a failed probe
defers the promotion by ending the pass, while `DemoteOfflineNode` is only
ever used on a member whose probe failed — never on one that passed it. -/
theorem rebalance_connectivity_discipline (reach : String → Bool) (aOK dOK : Bool)
    (oracle : List (String × List RaftNode)) :
    (∀ id, RebalanceAction.demoteOffline id ∈ rebalanceMemberRoles reach aOK dOK oracle →
      ∃ p ∈ oracle, ∃ n : RaftNode, p.2.find? (fun x => x.address = p.1) = some n ∧
        n.id = id ∧ n.role = .spare ∧ reach p.1 = false) ∧
    (∀ addr nodes, RebalanceAction.assign addr nodes ∈ rebalanceMemberRoles reach aOK dOK oracle →
      ∀ n : RaftNode, nodes.find? (fun x => x.address = addr) = some n →
        n.role ≠ .spare → reach addr = true) ∧
    (∀ addr nodes rest n, oracle = (addr, nodes) :: rest →
      nodes.find? (fun x => x.address = addr) = some n → n.role ≠ .spare →
      reach addr = false → rebalanceMemberRoles reach aOK dOK oracle = []) := by
  refine ⟨fun id h => rebalance_demote_unreachable reach aOK dOK oracle id h,
    fun addr nodes h => rebalance_assign_probed reach aOK dOK oracle addr nodes h,
    ?_⟩
  rintro addr nodes rest n rfl hfind hrole hreach
  by_cases ha : addr = ""
  · rw [rebalanceMemberRoles, if_pos ha]
  · rw [rebalanceMemberRoles, if_neg ha, hfind]
    dsimp only []
    rw [if_pos hrole, if_pos (by simp [hreach])]

/-- Witness for `rebalance_connectivity_discipline`: a pass that wants to
promote an unreachable stand-by issues nothing and is deferred. -/
theorem rebalance_connectivity_discipline_witness :
    rebalanceMemberRoles (fun _ => false) true true
      [("10.0.0.2:8443", [⟨2, "10.0.0.2:8443", .standBy, "n2"⟩])] = [] :=
  (rebalance_connectivity_discipline (fun _ => false) true true
      [("10.0.0.2:8443", [⟨2, "10.0.0.2:8443", .standBy, "n2"⟩])]).2.2
    "10.0.0.2:8443" [⟨2, "10.0.0.2:8443", .standBy, "n2"⟩] []
    ⟨2, "10.0.0.2:8443", .standBy, "n2"⟩ rfl rfl (by decide) rfl

/-- C8: removing the current leader of a two-node raft configuration.  On the
leader, the remaining non-voter is promoted before anything else — in
particular before `cluster.Leave` removes the member.  On the forwarding
survivor, after the removal succeeds the events are exactly: forward, wait
for leadership, refresh the certificate cache, flush the response — in that
order. -/
theorem clusterNodeDelete_two_node_leader (env : DeleteEnv) (n : RaftNode)
    (hname : env.name = env.leaderName) (hlen : env.raftNodes.length = 2) :
    (env.localClusterAddress = env.leader →
      env.raftNodes.find? (fun x => x.address ≠ env.leader ∧ x.role ≠ .voter) = some n →
      (clusterNodeDelete env).1.head? = some (.promote n.address)) ∧
    (env.localClusterAddress ≠ env.leader →
      env.connectOK = true → env.forwardOK = true → env.waitLeadershipOK = true →
      (clusterNodeDelete env).1 =
        (if env.localName = env.name then [DeleteEvent.acquireDisableLock] else []) ++
          [.forwardDelete, .waitLeadership, .updateCertCache, .respondFlush]) := by
  constructor
  · intro hloc hfind
    rw [clusterNodeDelete, if_neg (not_not_intro hloc)]
    unfold clusterNodeDeleteLeader
    simp only [hname, hlen, hfind, eq_self_iff_true, and_self, if_true, true_and]
    repeat' split
    all_goals rfl
  · intro hloc hconn hfwd hwait
    rw [clusterNodeDelete, if_pos hloc]
    unfold clusterNodeDeleteForward
    dsimp only []
    rw [if_neg (by simp [hconn]), if_neg (by simp [hfwd]), if_pos ⟨hname, hlen⟩,
      if_neg (by simp [hwait])]
    simp

/-- Witness for `clusterNodeDelete_two_node_leader` on a concrete two-node
cluster: the leader `n1` being removed promotes `n2` first; the survivor
`n2` forwarding its own request waits for leadership before refreshing certs
and responding. -/
theorem clusterNodeDelete_two_node_leader_witness :
    ((clusterNodeDelete
        ⟨"n1", false, false, "10.0.0.1:8443", "10.0.0.1:8443", "n1", "n1",
          [⟨1, "10.0.0.1:8443", .voter, "n1"⟩, ⟨2, "10.0.0.2:8443", .standBy, "n2"⟩],
          true, true, true, true, true, true, "10.0.0.1:8443", true, true, true,
          ⟨true, true, true, true⟩⟩).1.head? =
      some (.promote "10.0.0.2:8443")) ∧
    ((clusterNodeDelete
        ⟨"n1", false, false, "10.0.0.2:8443", "10.0.0.1:8443", "n2", "n1",
          [⟨1, "10.0.0.1:8443", .voter, "n1"⟩, ⟨2, "10.0.0.2:8443", .standBy, "n2"⟩],
          true, true, true, true, true, true, "10.0.0.1:8443", true, true, true,
          ⟨true, true, true, true⟩⟩).1 =
      [.forwardDelete, .waitLeadership, .updateCertCache, .respondFlush]) := by
  constructor
  · exact (clusterNodeDelete_two_node_leader
      ⟨"n1", false, false, "10.0.0.1:8443", "10.0.0.1:8443", "n1", "n1",
        [⟨1, "10.0.0.1:8443", .voter, "n1"⟩, ⟨2, "10.0.0.2:8443", .standBy, "n2"⟩],
        true, true, true, true, true, true, "10.0.0.1:8443", true, true, true,
        ⟨true, true, true, true⟩⟩ ⟨2, "10.0.0.2:8443", .standBy, "n2"⟩ rfl rfl).1
      rfl (by decide)
  · have h := (clusterNodeDelete_two_node_leader
      ⟨"n1", false, false, "10.0.0.2:8443", "10.0.0.1:8443", "n2", "n1",
        [⟨1, "10.0.0.1:8443", .voter, "n1"⟩, ⟨2, "10.0.0.2:8443", .standBy, "n2"⟩],
        true, true, true, true, true, true, "10.0.0.1:8443", true, true, true,
        ⟨true, true, true, true⟩⟩ ⟨2, "10.0.0.2:8443", .standBy, "n2"⟩ rfl rfl).2
      (by decide) rfl rfl rfl
    rw [h]
    rfl

/-- Inductive invariant of the self-removal synchronization model: the lock
discipline of `clusterPutDisableMu`, that thread B only exists after the
forward, and that B's process replacement implies A has run to
completion. -/
def DisableSyncInv (s : DisableSyncState) : Prop :=
  s.pcA ≤ 5 ∧ s.pcB ≤ 2 ∧ (s.lockA = true ↔ 1 ≤ s.pcA ∧ s.pcA ≤ 4) ∧
    (1 ≤ s.pcB → 2 ≤ s.pcA) ∧ (s.pcB = 2 → s.pcA = 5) ∧ (s.lockB = true ↔ s.pcB = 2)

/-- Each transition of the model preserves the invariant. -/
theorem disableSyncStep_preserves {a b : DisableSyncState}
    (hstep : DisableSyncStep a b) (ih : DisableSyncInv a) : DisableSyncInv b := by
  obtain ⟨i1, i2, i3, i4, i5, i6⟩ := ih
  cases hstep with
  | aAcquire h0 hlA hlB =>
    refine ⟨by simp, by simpa using i2, by simp, ?_, ?_, by simpa using i6⟩
    · intro hb
      have := i4 (by simpa using hb)
      omega
    · intro hb
      have := i5 (by simpa using hb)
      omega
  | aForward h0 =>
    refine ⟨by simp, by simpa using i2, ?_, ?_, ?_, by simpa using i6⟩
    · have hla : a.lockA = true := i3.mpr (by omega)
      simp [hla]
    · intro _; simp
    · intro hb
      have := i5 (by simpa using hb)
      omega
  | aFlush h0 =>
    refine ⟨by simp, by simpa using i2, ?_, ?_, ?_, by simpa using i6⟩
    · have hla : a.lockA = true := i3.mpr (by omega)
      simp [hla]
    · intro _; simp
    · intro hb
      have := i5 (by simpa using hb)
      omega
  | aCtxDone h0 =>
    refine ⟨by simp, by simpa using i2, ?_, ?_, ?_, by simpa using i6⟩
    · have hla : a.lockA = true := i3.mpr (by omega)
      simp [hla]
    · intro _; simp
    · intro hb
      have := i5 (by simpa using hb)
      omega
  | aRelease h0 =>
    refine ⟨by simp, by simpa using i2, by simp, ?_, ?_, by simpa using i6⟩
    · intro _; simp
    · intro _; simp
  | bTriggered h0 hA =>
    refine ⟨by simpa using i1, by simp, by simpa using i3, ?_, ?_, ?_⟩
    · intro _; simpa using hA
    · intro hb; simp at hb
    · have hlb : a.lockB = false := by
        cases hlb2 : a.lockB
        · rfl
        · have := i6.mp hlb2; omega
      simp [hlb]
  | bAcquire h0 hlA hlB =>
    have h24 : ¬(1 ≤ a.pcA ∧ a.pcA ≤ 4) := fun hc => by
      have := i3.mpr hc
      rw [this] at hlA
      exact absurd hlA (by simp)
    have h2A : 2 ≤ a.pcA := i4 (by omega)
    have h5A : a.pcA = 5 := by omega
    refine ⟨by simpa using i1, by simp, ?_, ?_, ?_, by simp⟩
    · simp [hlA, h5A]
    · intro _
      show 2 ≤ a.pcA
      omega
    · intro _; simpa using h5A

/-- The invariant holds in every reachable state of the model. -/
theorem disableSync_inv (s : DisableSyncState) (h : DisableSyncReachable s) :
    DisableSyncInv s := by
  induction h with
  | refl => unfold DisableSyncInv; decide
  | tail hsteps hstep ih => exact disableSyncStep_preserves hstep ih

/-- C5: in the self-removal of a non-leader member, the daemon process is
never replaced or exited before the response to the original client request
has been flushed: in every reachable state, if thread B has replaced the
process (`pcB = 2`) then thread A has flushed the response and released the
lock (`pcA = 5`), and the disable lock is continuously held by the handler
from its acquisition — before the forward to the leader — until after the
request context is done. -/
theorem selfRemoval_flush_before_exit (s : DisableSyncState)
    (h : DisableSyncReachable s) :
    (s.pcB = 2 → s.pcA = 5 ∧ 3 ≤ s.pcA) ∧
    (1 ≤ s.pcA → s.pcA ≤ 4 → s.lockA = true) := by
  obtain ⟨i1, i2, i3, i4, i5, i6⟩ := disableSync_inv s h
  refine ⟨fun hb => ?_, fun h1 h2 => i3.mpr ⟨h1, h2⟩⟩
  have := i5 hb
  omega

/-- Witness for `selfRemoval_flush_before_exit`: the full interleaving in
which the process is replaced happens only after the flush. -/
theorem selfRemoval_flush_before_exit_witness :
    (⟨5, 2, false, true⟩ : DisableSyncState).pcA = 5 ∧
    3 ≤ (⟨5, 2, false, true⟩ : DisableSyncState).pcA := by
  have h1 : DisableSyncReachable ⟨1, 0, true, false⟩ :=
    Relation.ReflTransGen.single (DisableSyncStep.aAcquire DisableSyncState.init rfl rfl rfl)
  have h2 : DisableSyncReachable ⟨2, 0, true, false⟩ :=
    h1.tail (DisableSyncStep.aForward _ rfl)
  have h3 : DisableSyncReachable ⟨3, 0, true, false⟩ :=
    h2.tail (DisableSyncStep.aFlush _ rfl)
  have h4 : DisableSyncReachable ⟨4, 0, true, false⟩ :=
    h3.tail (DisableSyncStep.aCtxDone _ rfl)
  have h5 : DisableSyncReachable ⟨5, 0, false, false⟩ :=
    h4.tail (DisableSyncStep.aRelease _ rfl)
  have h6 : DisableSyncReachable ⟨5, 1, false, false⟩ :=
    h5.tail (DisableSyncStep.bTriggered _ rfl (by decide))
  have h7 : DisableSyncReachable ⟨5, 2, false, true⟩ :=
    h6.tail (DisableSyncStep.bAcquire _ rfl rfl rfl)
  exact (selfRemoval_flush_before_exit _ h7).1 rfl

/-- The probe's instance loop triggers exactly when some instance should
auto-start, is running, or has a snapshot schedule. -/
theorem checkInstances_iff (isTrue : String → Bool) (pr : String) :
    ∀ l : List Inst, checkInstances isTrue pr l = true ↔
      ∃ i ∈ l, instanceShouldAutoStart isTrue pr i = true ∨
        i.running = true ∨ i.schedule ≠ "" := by
  intro l
  induction l with
  | nil => simp [checkInstances]
  | cons i rest ih =>
    unfold checkInstances
    by_cases h1 : instanceShouldAutoStart isTrue pr i = true
    · rw [if_pos h1]
      exact iff_of_true rfl ⟨i, by simp, Or.inl h1⟩
    · rw [if_neg h1]
      by_cases h2 : i.running = true
      · rw [if_pos h2]
        exact iff_of_true rfl ⟨i, by simp, Or.inr (Or.inl h2)⟩
      · rw [if_neg h2]
        by_cases h3 : i.schedule ≠ ""
        · rw [if_pos h3]
          exact iff_of_true rfl ⟨i, by simp, Or.inr (Or.inr h3)⟩
        · rw [if_neg h3, ih]
          constructor
          · rintro ⟨j, hj, hp⟩
            exact ⟨j, List.mem_cons_of_mem _ hj, hp⟩
          · rintro ⟨j, hj, hp⟩
            rcases List.mem_cons.mp hj with rfl | hj2
            · rcases hp with hp | hp | hp
              · exact absurd hp h1
              · exact absurd hp h2
              · exact absurd hp h3
            · exact ⟨j, hj2, hp⟩

/-- The probe's volume loop triggers exactly when some custom volume has a
snapshot schedule. -/
theorem checkVolumes_iff :
    ∀ l : List Volume, checkVolumes l = true ↔ ∃ v ∈ l, v.schedule ≠ "" := by
  intro l
  induction l with
  | nil => simp [checkVolumes]
  | cons v rest ih =>
    unfold checkVolumes
    by_cases h1 : v.schedule ≠ ""
    · rw [if_pos h1]
      exact iff_of_true rfl ⟨v, by simp, h1⟩
    · rw [if_neg h1, ih]
      constructor
      · rintro ⟨w, hw, hp⟩
        exact ⟨w, List.mem_cons_of_mem _ hw, hp⟩
      · rintro ⟨w, hw, hp⟩
        rcases List.mem_cons.mp hw with rfl | hw2
        · exact absurd hp h1
        · exact ⟨w, hw2, hp⟩

/-- C9: the activation probe attempts daemon startup iff a network address
is configured, some instance should auto-start or is running or has a
snapshot schedule, or some custom volume has a snapshot schedule; with
consistent databases (absent files hold nothing) and no I/O failure it never
errors, and when none of the conditions holds — including when the local or
global database is absent — it completes without triggering startup. -/
theorem activateifneeded_iff (isTrue : String → Bool) (pr : String)
    (io : ActivateCalls) (env : ActivateEnv)
    (hio : io.localOpenOK = true ∧ io.globalOpenOK = true ∧
      io.loadInstancesOK = true ∧ io.loadVolumesOK = true)
    (hwf : env.Wellformed) :
    (activateRun isTrue pr io env = some true ↔
      env.httpsAddress ≠ "" ∨
      (∃ i ∈ env.instances, instanceShouldAutoStart isTrue pr i = true ∨
        i.running = true ∨ i.schedule ≠ "") ∨
      (∃ v ∈ env.volumes, v.schedule ≠ "")) ∧
    activateRun isTrue pr io env ≠ none := by
  obtain ⟨io1, io2, io3, io4⟩ := hio
  obtain ⟨wf1, wf2⟩ := hwf
  unfold activateRun
  by_cases hl : env.localDBExists = true
  case neg =>
    have hl2 : env.localDBExists = false := by simpa using hl
    obtain ⟨hw1, hw2⟩ := wf1 hl2
    obtain ⟨hi, hv⟩ := wf2 hw2
    rw [if_pos (by simp [hl2])]
    refine ⟨⟨fun hc => by simp at hc, fun hc => ?_⟩, by simp⟩
    rcases hc with hc | hc | hc
    · exact absurd hw1 hc
    · rw [hi] at hc; simp at hc
    · rw [hv] at hc; simp at hc
  case pos =>
    rw [if_neg (by simp [hl]), if_neg (by simp [io1])]
    by_cases hh : env.httpsAddress ≠ ""
    · rw [if_pos hh]
      exact ⟨iff_of_true rfl (Or.inl hh), by simp⟩
    · rw [if_neg hh]
      by_cases hg : env.globalDBExists = true
      case neg =>
        have hg2 : env.globalDBExists = false := by simpa using hg
        obtain ⟨hi, hv⟩ := wf2 hg2
        rw [if_pos (by simp [hg2])]
        refine ⟨⟨fun hc => by simp at hc, fun hc => ?_⟩, by simp⟩
        rcases hc with hc | hc | hc
        · exact absurd hc hh
        · rw [hi] at hc; simp at hc
        · rw [hv] at hc; simp at hc
      case pos =>
        rw [if_neg (by simp [hg]), if_neg (by simp [io2]), if_neg (by simp [io3])]
        by_cases hci : checkInstances isTrue pr env.instances = true
        · rw [if_pos hci]
          exact ⟨iff_of_true rfl
            (Or.inr (Or.inl ((checkInstances_iff isTrue pr env.instances).mp hci))), by simp⟩
        · rw [if_neg hci, if_neg (by simp [io4])]
          by_cases hcv : checkVolumes env.volumes = true
          · rw [if_pos hcv]
            exact ⟨iff_of_true rfl
              (Or.inr (Or.inr ((checkVolumes_iff env.volumes).mp hcv))), by simp⟩
          · rw [if_neg hcv]
            refine ⟨⟨fun hc => by simp at hc, fun hc => ?_⟩, by simp⟩
            rcases hc with hc | hc | hc
            · exact absurd hc hh
            · exact absurd ((checkInstances_iff isTrue pr env.instances).mpr hc) hci
            · exact absurd ((checkVolumes_iff env.volumes).mpr hc) hcv

/-- Witness for `activateifneeded_iff`: an instance with `boot.autostart`
set triggers activation. -/
theorem activateifneeded_iff_witness :
    activateRun (fun v => v == "true") "running" ⟨true, true, true, true⟩
      ⟨true, "", true, [⟨"true", "", "", false⟩], []⟩ = some true :=
  ((activateifneeded_iff (fun v => v == "true") "running" ⟨true, true, true, true⟩
      ⟨true, "", true, [⟨"true", "", "", false⟩], []⟩ ⟨rfl, rfl, rfl, rfl⟩
      ⟨fun h => absurd h (by simp), fun h => absurd h (by simp)⟩).1).mpr
    (Or.inr (Or.inl ⟨⟨"true", "", "", false⟩, by simp, Or.inl rfl⟩))

end Incus
